import Mathlib

/-!
# Verification of the turtle-build core against its specification

A shallow embedding of the code in `src/src/main.rs` and
`src/src/infrastructure/command_runner.rs`, together with theorems settling
the frozen claims about module resolution, the command-runner concurrency
gate, the file-descriptor budget, error reporting, the database directory
layout, exit codes and the job-limit default.

Conventions of the embedding:
- A canonical absolute path is its list of components (`Path := List String`).
- Rust `HashMap` values are modelled as association lists with
  insert-overwrite semantics; `HashMap` iteration order is unspecified in
  Rust, so the association list keeps first-insertion key order and every
  theorem proved below is insensitive to that choice of order.
- Fallible operations return `Outcome`, which distinguishes success, an
  `ApplicationError`, a panic (`Option::unwrap` on `None`), and — for the
  fuelled work-list loop of `parse_modules` — running out of fuel.
- The `async` structure of the Rust code is irrelevant to the sequential
  functions (`parse_modules` awaits each read before continuing); the
  command runner's concurrency is modelled by an explicit step relation.
-/

namespace Turtle

/-- A canonical absolute path, as its list of components. `[]` is the
filesystem root. -/
abbrev Path := List String

/-- Rust `Path::parent`: `none` for the root, otherwise the path with the
last component dropped. -/
def parentPath : Path → Option Path
  | [] => none
  | ps => some ps.dropLast

/-- Modelled from the spec: `turtle_build::error::ApplicationError` is not
under `src/`; §7 gives the error taxonomy — the generic build failure
(`ApplicationError::Build`, the one variant named in `src/src/main.rs` line
43), structural errors (parse/cycle), storage errors (database), and I/O
errors (read/canonicalize failures). -/
inductive ApplicationError where
  | build
  | structural
  | storage
  | ioError
deriving DecidableEq, Repr

/-- Result of a fallible computation of the embedded program: success, an
`ApplicationError`, a panic (modelling `Option::unwrap` on `None`), or the
fuelled loop still running when the fuel is exhausted. -/
inductive Outcome (α : Type) where
  | ok (value : α)
  | err (e : ApplicationError)
  | panicked
  | fuelOut
deriving DecidableEq, Repr

/-- Whether an `Outcome` is a success. -/
def Outcome.isOk {α : Type} : Outcome α → Bool
  | .ok _ => true
  | _ => false

/-! ## Constants and arithmetic of `main` (src/src/main.rs lines 21-39) -/

/-- From src/src/main.rs line 23: `256` on macOS, `1024` otherwise. -/
def OPEN_FILE_LIMIT (macos : Bool) : Nat := if macos then 256 else 1024

/-- From src/src/main.rs line 24: stdin, stdout and stderr per process. -/
def DEFAULT_FILE_COUNT_PER_PROCESS : Nat := 3

/-- From src/src/main.rs line 22. -/
def DATABASE_DIRECTORY : String := ".turtle"

/-- From src/src/main.rs lines 34-38: the open-file budget handed to
`OsFileSystem::new`. Rust `saturating_sub` on `usize` is `Nat` truncated
subtraction; `.max(1)` is `Nat.max` with the subtraction on the left. -/
def openFileBudget (macos : Bool) (jobLimit : Nat) : Nat :=
  Nat.max (OPEN_FILE_LIMIT macos - DEFAULT_FILE_COUNT_PER_PROCESS * (jobLimit + 1)) 1

/-- The same budget as §6 of the spec words it: system FD limit minus
(reserved FDs per concurrent job × (job_limit+1)), the subtraction clamped
at zero (`Int.toNat`), and the result floored at 1. -/
def specOpenFileBudget (macos : Bool) (jobLimit : Nat) : Nat :=
  Nat.max
    (Int.toNat ((OPEN_FILE_LIMIT macos : Int)
      - (DEFAULT_FILE_COUNT_PER_PROCESS : Int) * ((jobLimit : Int) + 1)))
    1

/-- From src/src/main.rs line 29: `arguments.job_limit.unwrap_or_else(num_cpus::get)`. -/
def effectiveJobLimit (argJobLimit : Option Nat) (numCpus : Nat) : Nat :=
  argJobLimit.getD numCpus

/-- From src/src/infrastructure/command_runner.rs lines 16-20:
`OsCommandRunner::new(job_limit)` builds `Semaphore::new(job_limit)`, so the
semaphore's initial permit count is exactly the job limit. -/
def semaphorePermits (jobLimit : Nat) : Nat := jobLimit

/-- From src/src/main.rs lines 42-68: `main` calls `exit(1)` in the `Err` branch
of `execute` and returns normally (process exit code 0) otherwise. -/
def mainExitCode (result : Except ApplicationError Unit) : Nat :=
  match result with
  | .error _ => 1
  | .ok _ => 0

/-! ## Error reporting in `main` (src/src/main.rs lines 42-62) -/

/-- Modelled from the spec: the display text of each error (the `Display`
implementation lives in `turtle_build::error`, outside `src/`); §4.4 and §7
call the execution failure the generic "build failed" condition. -/
def errorMessage : ApplicationError → String
  | .build => "build failed"
  | .structural => "dependency cycle detected"
  | .storage => "database error"
  | .ioError => "i/o error"

/-- From src/src/main.rs line 43: the error line is written unless
`arguments.quiet` holds and the error matches `ApplicationError::Build`. -/
def shouldReport (quiet : Bool) (e : ApplicationError) : Bool :=
  !quiet || !(match e with | ApplicationError.build => true | _ => false)

/-- From src/src/main.rs lines 48-58: the single line written to stderr — the
log prefix (`arguments.log_prefix`, here `logLabel`) when configured,
the error's display text, and a trailing newline. -/
def stderrLine (logLabel : Option String) (e : ApplicationError) : String :=
  (match logLabel with | some l => l | none => "") ++ errorMessage e ++ "\n"

/-- Number of newline characters in a string. -/
def newlineCount (s : String) : Nat := (s.data.filter (fun c => c = '\n')).length

/-! ## Database directory (src/src/main.rs lines 92-99) -/

/-- From src/src/main.rs line 98: `env!("CARGO_PKG_VERSION").replace('.', "_")` —
every `'.'` replaced by `'_'`. -/
def versionTag (version : String) : String :=
  String.mk (version.data.map (fun c => if c = '.' then '_' else c))

/-- From src/src/main.rs lines 92-99: the directory handed to
`database().initialize` — the configuration's build directory when present,
otherwise `root_module_path.parent().unwrap()` (the `unwrap` panics when the
parent is `None`, modelled as `Outcome.panicked`), joined with `.turtle` and
then with the version tag. The `unwrap_or_else` is lazy: with a build
directory configured the parent is never taken. -/
def databaseDirectory (buildDirectory : Option Path) (rootModulePath : Path)
    (version : String) : Outcome Path :=
  match buildDirectory with
  | some dir => .ok (dir ++ [DATABASE_DIRECTORY, versionTag version])
  | none =>
    match parentPath rootModulePath with
    | some par => .ok (par ++ [DATABASE_DIRECTORY, versionTag version])
    | none => .panicked

/-! ## Module resolution (src/src/main.rs lines 121-176) -/

/-- Modelled from the spec: `turtle_build::ast::Statement` is not under
`src/`; §2 lists the statement kinds. Only `Include` and `Submodule` carry a
referenced path and only those are examined by `parse_modules`
(src/src/main.rs lines 143-147); every other kind is `other`. -/
inductive Statement where
  | includeStmt (path : String)
  | submoduleStmt (path : String)
  | other
deriving DecidableEq, Repr

/-- Modelled from the spec: `turtle_build::ast::Module` is not under `src/`;
§3 — a parsed unit holding an ordered sequence of statements. -/
structure Module where
  statements : List Statement
deriving DecidableEq, Repr

/-- From src/src/main.rs lines 139-149 (the `filter_map`): the referenced paths
of a module's `Include` and `Submodule` statements, in statement order. -/
def referencedPaths (m : Module) : List String :=
  m.statements.filterMap fun st =>
    match st with
    | .includeStmt p => some p
    | .submoduleStmt p => some p
    | .other => none

/-- The external collaborators used by `parse_modules`:
`FileSystem::canonicalize_path` and `FileSystem::read_file_to_string`
(both abstract interfaces per §6, `none` = I/O error) and
`turtle_build::parse::parse` (modelled from the spec — §4.1: a parse
failure aborts the whole resolution; `none` = parse error, a structural
error per §7). The literal text of a referenced path is treated as one
opaque component; relative-path resolution is folded into `canonicalize`. -/
structure Env where
  canonicalize : Path → Option Path
  readFile : Path → Option String
  parseModule : String → Option Module

/-- From src/src/main.rs lines 164-176: `resolve_submodule_path` — take the
including module path's `parent().unwrap()` (panic when `None`), join the
referenced literal text onto it, canonicalize, and pair the result with the
literal text. -/
def resolveSubmodulePath (env : Env) (modulePath : Path) (submodulePath : String) :
    Outcome (String × Path) :=
  match parentPath modulePath with
  | none => .panicked
  | some par =>
    match env.canonicalize (par ++ [submodulePath]) with
    | some canonical => .ok (submodulePath, canonical)
    | none => .err .ioError

/-- From src/src/main.rs lines 139-151: resolve every referenced path of one
module; the first failure aborts (`try_join_all` returns the error of any
failing future; here resolution is pure, so failures are deterministic and
taking the first is faithful up to which error is reported). -/
def resolveAllRefs (env : Env) (modulePath : Path) :
    List String → Outcome (List (String × Path))
  | [] => .ok []
  | ref :: rest =>
    match resolveSubmodulePath env modulePath ref, resolveAllRefs env modulePath rest with
    | .ok pair, .ok pairs => .ok (pair :: pairs)
    | .ok _, .err e => .err e
    | .ok _, .panicked => .panicked
    | .ok _, .fuelOut => .fuelOut
    | .err e, _ => .err e
    | .panicked, _ => .panicked
    | .fuelOut, _ => .fuelOut

/-- Rust `HashMap::insert` on an association list: overwrite the value of an
existing key in place, append a new key at the end. -/
def insertAssoc {κ α : Type} [DecidableEq κ] (key : κ) (value : α) :
    List (κ × α) → List (κ × α)
  | [] => [(key, value)]
  | (k, v) :: rest =>
    if k = key then (key, value) :: rest else (k, v) :: insertAssoc key value rest

/-- Rust `collect` into a `HashMap` on a list of pairs: left-to-right inserts,
a later pair with the same key overwriting the earlier one. -/
def collectMap {κ α : Type} [DecidableEq κ] (pairs : List (κ × α)) : List (κ × α) :=
  pairs.foldl (fun acc kv => insertAssoc kv.1 kv.2 acc) []

/-- Rust `Vec::pop`: removes and returns the LAST element. -/
def popLast {α : Type} : List α → Option (α × List α)
  | [] => none
  | [x] => some (x, [])
  | x :: xs => (popLast xs).map (fun yys => (yys.1, x :: yys.2))

/-- The loop state of `parse_modules` (src/src/main.rs lines 125-127): the
work-list `paths` (a `Vec` popped from the back), the `modules` map, the
`dependencies` map, and — ghost instrumentation only, never read by the
loop — the list of paths passed to `read_file_to_string`, in order. -/
structure ResolveState where
  paths : List Path
  modules : List (Path × Module)
  dependencies : List (Path × List (String × Path))
  readLog : List Path
deriving DecidableEq, Repr

/-- From src/src/main.rs lines 129-159: the `while let Some(path) = paths.pop()`
loop, fuelled. One unit of fuel per iteration; `.fuelOut` means the loop is
still running after that many iterations. Each iteration reads the popped
path, parses it, resolves all of its references, collects them into a map
keyed by literal text, extends the work-list with ALL of the map's values
(the source has no seen-set and no membership test), and overwrites the
`modules` and `dependencies` entries for the popped path. -/
def parseModulesGo (env : Env) : Nat → ResolveState → Outcome ResolveState
  | 0, _ => .fuelOut
  | fuel + 1, s =>
    match popLast s.paths with
    | none => .ok s
    | some (path, rest) =>
      match env.readFile path with
      | none => .err .ioError
      | some source =>
        match env.parseModule source with
        | none => .err .structural
        | some module =>
          match resolveAllRefs env path (referencedPaths module) with
          | .err e => .err e
          | .panicked => .panicked
          | .fuelOut => .fuelOut
          | .ok resolved =>
            parseModulesGo env fuel
              { paths := rest ++ (collectMap resolved).map Prod.snd
                modules := insertAssoc path module s.modules
                dependencies := insertAssoc path (collectMap resolved) s.dependencies
                readLog := s.readLog ++ [path] }

/-- From src/src/main.rs lines 121-162: `parse_modules` — canonicalize the root
path, seed the work-list with it, and run the loop. On success the real
function returns the `modules` and `dependencies` fields of the final
state. -/
def parseModules (env : Env) (fuel : Nat) (path : Path) : Outcome ResolveState :=
  match env.canonicalize path with
  | none => .err .ioError
  | some canonical => parseModulesGo env fuel ⟨[canonical], [], [], []⟩

/-- The ghost read log of a finished resolution (empty unless it succeeded). -/
def readLogOf : Outcome ResolveState → List Path
  | .ok s => s.readLog
  | _ => []

/-- How many times resolution read the file at `p`. -/
def countPath (p : Path) (log : List Path) : Nat :=
  (log.filter (fun q => q = p)).length

/-! ## Command runner concurrency (src/src/infrastructure/command_runner.rs) -/

/-- The status of one in-flight call to `OsCommandRunner::run`
(command_runner.rs lines 25-33): suspended in `semaphore.acquire()` (line
26); holding a permit with the external process spawned (line 28); finished
with the output returned (lines 30-32); or finished on the error path — the
`?` on line 28, where the `SemaphorePermit` is released by its RAII `Drop`. -/
inductive TaskStatus where
  | waiting
  | running
  | doneOk
  | doneErr
deriving DecidableEq, Repr

/-- Number of tasks in status `c`. -/
def countStatus (c : TaskStatus) : List TaskStatus → Nat
  | [] => 0
  | t :: ts => (if t = c then 1 else 0) + countStatus c ts

/-- The shared state: the semaphore's available permit count and the status
of each call to `run`. -/
structure RunnerState where
  permits : Nat
  tasks : List TaskStatus
deriving DecidableEq, Repr

/-- From command_runner.rs lines 16-20: a fresh `OsCommandRunner` has
`job_limit` free permits; `k` calls to `run` start suspended at the
`acquire` of line 26. -/
def initRunner (jobLimit k : Nat) : RunnerState :=
  ⟨jobLimit, List.replicate k .waiting⟩

/-- The atomic transitions of the command runner (command_runner.rs lines
25-33). `acquire` fires only when a permit is free (line 26 suspends
otherwise) and moves a waiting call to running while taking the permit;
`finishOk` is the process exiting followed by `drop(permit)` (lines 28-30);
`finishErr` is the `?` error path of line 28, whose RAII drop of the held
permit also releases it. -/
inductive RunnerStep : RunnerState → RunnerState → Prop where
  | acquire (p : Nat) (l r : List TaskStatus) (hp : 0 < p) :
      RunnerStep ⟨p, l ++ TaskStatus.waiting :: r⟩ ⟨p - 1, l ++ TaskStatus.running :: r⟩
  | finishOk (p : Nat) (l r : List TaskStatus) :
      RunnerStep ⟨p, l ++ TaskStatus.running :: r⟩ ⟨p + 1, l ++ TaskStatus.doneOk :: r⟩
  | finishErr (p : Nat) (l r : List TaskStatus) :
      RunnerStep ⟨p, l ++ TaskStatus.running :: r⟩ ⟨p + 1, l ++ TaskStatus.doneErr :: r⟩

/-- States reachable from a fresh runner with `jobLimit` permits and `k`
pending calls by any interleaving of acquisitions and completions. -/
def RunnerReachable (jobLimit k : Nat) (s : RunnerState) : Prop :=
  Relation.ReflTransGen RunnerStep (initRunner jobLimit k) s

/-! ## Concrete module-set instances -/

/-- The canonical path of a module file that references itself. -/
def cyclePath : Path := ["root", "a.ninja"]

/-- A one-file module set with a self-cycle: `root/a.ninja` holds the single
statement `submodule a.ninja`, which resolves back to `root/a.ninja` itself
(`parent ["root","a.ninja"] = ["root"]`, joined with `a.ninja` and
canonicalized). Every file-system call outside this one file fails. -/
def cyclicEnv : Env where
  canonicalize := fun p => if p = ["root", "a.ninja"] then some ["root", "a.ninja"] else none
  readFile := fun p => if p = ["root", "a.ninja"] then some "submodule a.ninja" else none
  parseModule := fun source =>
    if source = "submodule a.ninja" then some ⟨[.submoduleStmt "a.ninja"]⟩ else none

/-- An acyclic, diamond-shaped module set in directory `d`: `root.ninja`
references `a.ninja` and `b.ninja`, each of which references `c.ninja`,
which references nothing. Sources are abbreviated to one letter per file. -/
def diamondEnv : Env where
  canonicalize := fun p =>
    if p = ["d", "root.ninja"] ∨ p = ["d", "a.ninja"] ∨ p = ["d", "b.ninja"]
        ∨ p = ["d", "c.ninja"]
    then some p else none
  readFile := fun p =>
    if p = ["d", "root.ninja"] then some "R"
    else if p = ["d", "a.ninja"] then some "A"
    else if p = ["d", "b.ninja"] then some "B"
    else if p = ["d", "c.ninja"] then some "C"
    else none
  parseModule := fun s =>
    if s = "R" then some ⟨[.includeStmt "a.ninja", .submoduleStmt "b.ninja"]⟩
    else if s = "A" then some ⟨[.includeStmt "c.ninja"]⟩
    else if s = "B" then some ⟨[.includeStmt "c.ninja"]⟩
    else if s = "C" then some ⟨[]⟩
    else none

/-- A file system whose `canonicalize` is the identity and whose reads all
fail; used only to instantiate theorems at a concrete environment. -/
def idEnv : Env where
  canonicalize := fun p => some p
  readFile := fun _ => none
  parseModule := fun _ => none

/-! ## Helper lemmas -/

/-- The counter `countStatus` distributes over list append. -/
theorem countStatus_append (c : TaskStatus) (l r : List TaskStatus) :
    countStatus c (l ++ r) = countStatus c l + countStatus c r := by
  induction l with
  | nil => simp [countStatus]
  | cons t ts ih => simp [countStatus, ih]; omega

/-- A fresh runner has no running task. -/
theorem countStatus_running_replicate (k : Nat) :
    countStatus .running (List.replicate k .waiting) = 0 := by
  induction k with
  | zero => rfl
  | succ n ih => simp [List.replicate_succ, countStatus, ih]

/-- The permit-conservation invariant of the command runner: in every
reachable state, running tasks plus available permits equal the job limit. -/
theorem runner_invariant (n k : Nat) (s : RunnerState) (h : RunnerReachable n k s) :
    countStatus .running s.tasks + s.permits = n := by
  induction h with
  | refl => simp [initRunner, countStatus_running_replicate]
  | tail _ hstep ih =>
    cases hstep with
    | acquire p l r hp =>
      simp [countStatus_append, countStatus] at ih ⊢
      omega
    | finishOk p l r =>
      simp [countStatus_append, countStatus] at ih ⊢
      omega
    | finishErr p l r =>
      simp [countStatus_append, countStatus] at ih ⊢
      omega

/-- A task list in which every call has finished has no running task. -/
theorem countStatus_running_of_done (ts : List TaskStatus)
    (hdone : ∀ t ∈ ts, t = TaskStatus.doneOk ∨ t = TaskStatus.doneErr) :
    countStatus .running ts = 0 := by
  induction ts with
  | nil => rfl
  | cons t ts ih =>
    have ht := hdone t (List.mem_cons_self t ts)
    have hrest : ∀ u ∈ ts, u = TaskStatus.doneOk ∨ u = TaskStatus.doneErr :=
      fun u hu => hdone u (List.mem_cons_of_mem t hu)
    rcases ht with h | h <;> subst h <;> simp [countStatus, ih hrest]

/-- The counter `newlineCount` distributes over string append. -/
theorem newlineCount_append (a b : String) :
    newlineCount (a ++ b) = newlineCount a + newlineCount b := by
  cases a with
  | mk la =>
    cases b with
    | mk lb => simp [newlineCount, String.data_append]

/-- On the self-including module set, each iteration of the `parse_modules`
loop pops the one path and pushes it right back, never emptying the
work-list: the loop runs out of any amount of fuel, from any intermediate
`modules`/`dependencies`/log state. -/
theorem cyclic_go_diverges :
    ∀ (fuel : Nat) (mods : List (Path × Module))
      (deps : List (Path × List (String × Path))) (log : List Path),
      parseModulesGo cyclicEnv fuel ⟨[cyclePath], mods, deps, log⟩ = .fuelOut := by
  intro fuel
  induction fuel with
  | zero => intro mods deps log; rfl
  | succ n ih =>
    intro mods deps log
    rw [show parseModulesGo cyclicEnv (n + 1) ⟨[cyclePath], mods, deps, log⟩
          = parseModulesGo cyclicEnv n
              ⟨[cyclePath], insertAssoc cyclePath ⟨[.submoduleStmt "a.ninja"]⟩ mods,
                insertAssoc cyclePath [("a.ninja", cyclePath)] deps,
                log ++ [cyclePath]⟩ from rfl]
    exact ih _ _ _

/-! ## Claim theorems -/

/-- C1: the claim says resolution of a cyclic module set terminates and
fails with a structural (cycle) error. On the code it does not: on the
self-including module set, `parse_modules` (which has no seen-set) pops the
path, re-enqueues it, and loops forever — after any number `fuel` of loop
iterations it is still running, having neither yielded a module set nor
reported any error, so the cycle validation in `execute` (src/src/main.rs
line 88) is never reached. -/
theorem cyclic_resolution_diverges (fuel : Nat) :
    parseModules cyclicEnv fuel cyclePath = .fuelOut := by
  rw [show parseModules cyclicEnv fuel cyclePath
        = parseModulesGo cyclicEnv fuel ⟨[cyclePath], [], [], []⟩ from rfl]
  exact cyclic_go_diverges fuel [] [] []

/-- C2: the claim says every module file is read and parsed at most once per
invocation. On the code it is not: in the diamond module set (root
references `a.ninja` and `b.ninja`, both reference `c.ninja`), resolution
succeeds but `c.ninja` is read and parsed twice, because references are
enqueued unconditionally — there is no seen-set. -/
theorem diamond_duplicate_read :
    countPath ["d", "c.ninja"] (readLogOf (parseModules diamondEnv 20 ["d", "root.ninja"])) = 2
    ∧ (parseModules diamondEnv 20 ["d", "root.ninja"]).isOk = true := by
  constructor <;> decide

/-- C3: for any job limit `n`, in every state the command runner can reach
(by any interleaving of permit acquisitions and process completions from a
fresh runner with `k` pending `run` calls), at most `n` calls are
simultaneously in the running state: `run` acquires one semaphore permit
before spawning, and the semaphore holds `n` permits. -/
theorem concurrency_bound (n k : Nat) (s : RunnerState) (h : RunnerReachable n k s) :
    countStatus .running s.tasks ≤ n := by
  have hinv := runner_invariant n k s h
  omega

/-- Witness for C3: with job limit 1 and two pending calls, the state after
one acquisition is reachable and satisfies the bound. -/
theorem concurrency_bound_witness :
    RunnerReachable 1 2 ⟨0, [.running, .waiting]⟩
    ∧ countStatus .running [.running, .waiting] ≤ 1 := by
  have hstep : RunnerStep (initRunner 1 2) ⟨0, [.running, .waiting]⟩ :=
    RunnerStep.acquire 1 [] [.waiting] (by decide)
  have hreach : RunnerReachable 1 2 ⟨0, [.running, .waiting]⟩ :=
    Relation.ReflTransGen.single hstep
  exact ⟨hreach, concurrency_bound 1 2 ⟨0, [.running, .waiting]⟩ hreach⟩

/-- C4: the permit taken by `run` is released on every exit path — by
`drop(permit)` after the process exits, and by the RAII drop of the permit
on the `?` error path when constructing or awaiting the process fails — so
in any reachable state in which every call has finished (successfully or
with an error), the available permit count is back to the job limit. -/
theorem permits_restored (n k : Nat) (s : RunnerState) (h : RunnerReachable n k s)
    (hdone : ∀ t ∈ s.tasks, t = TaskStatus.doneOk ∨ t = TaskStatus.doneErr) :
    s.permits = n := by
  have hinv := runner_invariant n k s h
  have hz := countStatus_running_of_done s.tasks hdone
  omega

/-- Witness for C4: with job limit 1, one call that acquires and then fails
(the error exit path) leaves a reachable all-finished state with the full
permit count restored. -/
theorem permits_restored_witness :
    RunnerReachable 1 1 ⟨1, [.doneErr]⟩
    ∧ (∀ t ∈ [TaskStatus.doneErr], t = TaskStatus.doneOk ∨ t = TaskStatus.doneErr)
    ∧ (⟨1, [TaskStatus.doneErr]⟩ : RunnerState).permits = 1 := by
  have h1 : RunnerStep (initRunner 1 1) ⟨0, [.running]⟩ :=
    RunnerStep.acquire 1 [] [] (by decide)
  have h2 : RunnerStep ⟨0, [.running]⟩ ⟨1, [.doneErr]⟩ :=
    RunnerStep.finishErr 0 [] []
  have hreach : RunnerReachable 1 1 ⟨1, [.doneErr]⟩ :=
    Relation.ReflTransGen.tail (Relation.ReflTransGen.single h1) h2
  have hdone : ∀ t ∈ [TaskStatus.doneErr], t = TaskStatus.doneOk ∨ t = TaskStatus.doneErr := by
    decide
  exact ⟨hreach, hdone, permits_restored 1 1 ⟨1, [TaskStatus.doneErr]⟩ hreach hdone⟩

/-- C5: the open-file budget handed to the file system equals the system FD
limit minus (reserved FDs per concurrent job × (job_limit + 1)) with the
subtraction clamped at zero and the result floored at 1 — on both the macOS
(256) and non-macOS (1024) limits, for every job limit. -/
theorem open_file_budget_spec (macos : Bool) (jobLimit : Nat) :
    openFileBudget macos jobLimit = specOpenFileBudget macos jobLimit
    ∧ 1 ≤ openFileBudget macos jobLimit := by
  have h : OPEN_FILE_LIMIT macos - DEFAULT_FILE_COUNT_PER_PROCESS * (jobLimit + 1)
      = Int.toNat ((OPEN_FILE_LIMIT macos : Int)
          - (DEFAULT_FILE_COUNT_PER_PROCESS : Int) * ((jobLimit : Int) + 1)) := by
    cases macos <;> simp [OPEN_FILE_LIMIT, DEFAULT_FILE_COUNT_PER_PROCESS] <;> omega
  refine ⟨?_, Nat.le_max_right _ 1⟩
  rw [openFileBudget, specOpenFileBudget, h]

/-- C6: the error line is suppressed exactly when the quiet flag is set and
the error is the generic build failure; structural, storage and I/O errors
are always reported; and what is written is a single line — the optional
log prefix, the error text, one trailing newline — provided the configured
prefix itself contains no newline. -/
theorem quiet_flag_scope (quiet : Bool) (logLabel : Option String) (e : ApplicationError)
    (hl : newlineCount (logLabel.getD "") = 0) :
    (shouldReport quiet e = false ↔ (quiet = true ∧ e = ApplicationError.build))
    ∧ newlineCount (stderrLine logLabel e) = 1 := by
  constructor
  · cases quiet <;> cases e <;> simp [shouldReport]
  · have hmsg : newlineCount (errorMessage e) = 0 := by cases e <;> decide
    have hnl : newlineCount "\n" = 1 := by decide
    cases logLabel with
    | none =>
      simp only [stderrLine, newlineCount_append, hmsg, hnl]
      simp at hl
      simp [hl]
    | some l =>
      simp only [Option.getD] at hl
      simp only [stderrLine, newlineCount_append, hmsg, hnl, hl]

/-- Witness for C6: with the quiet flag set, prefix `turtle: ` and a storage
error, the line is still reported and is a single line. -/
theorem quiet_flag_scope_witness :
    newlineCount ((some "turtle: ").getD "") = 0
    ∧ ((shouldReport true ApplicationError.storage = false
        ↔ (true = true ∧ ApplicationError.storage = ApplicationError.build))
      ∧ newlineCount (stderrLine (some "turtle: ") ApplicationError.storage) = 1) :=
  ⟨by decide, quiet_flag_scope true (some "turtle: ") ApplicationError.storage (by decide)⟩

/-- C7: the database directory is the configured build directory when
present, otherwise the parent of the root module path, joined with
`.turtle` and then with the version string in which every dot is replaced
by an underscore. -/
theorem database_directory_layout (bd : Option Path) (root par : Path) (v : String)
    (h : parentPath root = some par) :
    databaseDirectory bd root v
      = .ok ((bd.getD par) ++ [DATABASE_DIRECTORY, versionTag v])
    ∧ (versionTag v).data = v.data.map (fun c => if c = '.' then '_' else c) := by
  constructor
  · cases bd with
    | some dir => simp [databaseDirectory, Option.getD]
    | none => simp [databaseDirectory, h, Option.getD]
  · rfl

/-- Witness for C7: no build directory, root module `/home/user/build.ninja`,
version `0.4.8` — the database directory is `/home/user/.turtle/0_4_8`. -/
theorem database_directory_layout_witness :
    parentPath ["home", "user", "build.ninja"] = some ["home", "user"]
    ∧ (databaseDirectory none ["home", "user", "build.ninja"] "0.4.8"
        = .ok (((none : Option Path).getD ["home", "user"])
            ++ [DATABASE_DIRECTORY, versionTag "0.4.8"])
      ∧ (versionTag "0.4.8").data
          = "0.4.8".data.map (fun c => if c = '.' then '_' else c)) :=
  ⟨rfl, database_directory_layout none ["home", "user", "build.ninja"] ["home", "user"]
    "0.4.8" rfl⟩

/-- C8: the process exit code is 1 exactly when `execute` returned an error
and 0 exactly when it returned success. -/
theorem exit_code_of_result (r : Except ApplicationError Unit) :
    (mainExitCode r = 1 ↔ ∃ e, r = Except.error e)
    ∧ (mainExitCode r = 0 ↔ r = Except.ok ()) := by
  cases r with
  | error e => simp [mainExitCode]
  | ok u => cases u; simp [mainExitCode]

/-- C9: under the precondition that the canonicalized module path has a
parent directory, the `.parent().unwrap()` calls in `resolve_submodule_path`
and in the database-path computation never panic (the modelled panic
outcome is unreachable), for every file system, referenced path, build
directory and version. -/
theorem parent_unwrap_safe (env : Env) (p par : Path) (sub : String)
    (bd : Option Path) (v : String) (h : parentPath p = some par) :
    resolveSubmodulePath env p sub ≠ Outcome.panicked
    ∧ databaseDirectory bd p v ≠ Outcome.panicked := by
  constructor
  · rw [resolveSubmodulePath, h]
    cases hc : env.canonicalize (par ++ [sub]) <;> simp [hc]
  · cases bd with
    | some dir => simp [databaseDirectory]
    | none => simp [databaseDirectory, h]

/-- Witness for C9: the module path `/d/m.ninja` has parent `/d`, and
neither computation panics on it under the identity file system. -/
theorem parent_unwrap_safe_witness :
    parentPath ["d", "m.ninja"] = some ["d"]
    ∧ (resolveSubmodulePath idEnv ["d", "m.ninja"] "x.ninja" ≠ Outcome.panicked
      ∧ databaseDirectory none ["d", "m.ninja"] "1.0" ≠ Outcome.panicked) :=
  ⟨rfl, parent_unwrap_safe idEnv ["d", "m.ninja"] ["d"] "x.ninja" none "1.0" rfl⟩

/-- C10: when no job limit is given on the command line, the effective job
limit is the number of available CPUs, and this value is what sizes the
command runner's semaphore (its initial permit count) and what enters the
open-file-descriptor budget. -/
theorem default_job_limit_sizes (argJobLimit : Option Nat) (numCpus k : Nat)
    (macos : Bool) (h : argJobLimit = none) :
    effectiveJobLimit argJobLimit numCpus = numCpus
    ∧ (initRunner (semaphorePermits (effectiveJobLimit argJobLimit numCpus)) k).permits
        = numCpus
    ∧ openFileBudget macos (effectiveJobLimit argJobLimit numCpus)
        = openFileBudget macos numCpus := by
  subst h
  exact ⟨rfl, rfl, rfl⟩

/-- Witness for C10: with no `-j` argument and 8 CPUs, the job limit, the
semaphore size and the budget's job-limit input are all 8. -/
theorem default_job_limit_sizes_witness :
    (none : Option Nat) = none
    ∧ (effectiveJobLimit none 8 = 8
      ∧ (initRunner (semaphorePermits (effectiveJobLimit none 8)) 5).permits = 8
      ∧ openFileBudget false (effectiveJobLimit none 8) = openFileBudget false 8) :=
  ⟨rfl, default_job_limit_sizes none 8 5 false rfl⟩

end Turtle
